import Mathlib

/-!
Verification of the section-to-template resolution and page-rendering pipeline
of the Twig style-guide builder (`builder/base/twig/kss_builder_base_twig.js`).

The development shallowly embeds the `build` and `buildPage` methods:
* file paths are strings, `path.basename` keeps the part after the last `/`;
* a configured source root is its list of files (full path strings) and the
  recursive glob search `glob(source + '/**/' + name)` is modelled as filtering
  the root's files by base name, in the order the search yields them;
* the Twig engine is external: compiling a template is recorded as a
  `CompileEvent` (identity plus inline text or file path), and rendering is an
  abstract function from a template identity and a context to a string;
* the asynchronous fan-out over roots joined by `Promise.all` is modelled by
  filling a slot array in an arbitrary completion order (`fillSlots`) and
  joining it (`joinAll`); `Promise.all` keys results by task index, not by
  completion time;
* the sample-data contexts are records with the `modifier_class` field made
  explicit (it is the one field the renderer touches) and the remaining JSON
  fields kept as an opaque association list; `JSON.parse(JSON.stringify(x))`
  on such plain data is a structural copy.
-/

set_option autoImplicit false

/-- Model of node's `path.basename`: the part of the path after the last `/`. -/
def basenameStr (p : String) : String :=
  String.mk ((p.toList.reverse.takeWhile (fun c => c ≠ '/')).reverse)

/-- Model of node's `path.dirname`: the part before the last `/`, or `.`. -/
def dirnameStr (p : String) : String :=
  let cs := p.toList
  if cs.contains '/' then
    String.mk (((cs.reverse.dropWhile (fun c => c ≠ '/')).drop 1).reverse)
  else "."

/-- Model of node's `path.join` for the two-argument uses in the source. -/
def joinPath (d b : String) : String :=
  if d = "." then b else d ++ "/" ++ b

/-- Model of `path.basename(name, '.twig')`: strip a trailing `.twig`. -/
def stripTwigExt (n : String) : String :=
  if n.endsWith ".twig" then n.dropRight 5 else n

/-- The path of the sample-data `.json` file looked up next to a located
template file (kss_builder_base_twig.js lines 421 and 439):
`path.join(path.dirname(file), path.basename(name, '.twig') + '.json')`. -/
def jsonPathFor (file name : String) : String :=
  joinPath (dirnameStr file) (stripTwigExt name ++ ".json")

/-- A sample-data context.  The renderer reads and writes only the
`modifier_class` field; all other fields of the JSON object are carried
opaquely.  `modifier_class := none` models the field being absent. -/
structure Ctx where
  modifier_class : Option String
  rest : List (String × String)
deriving DecidableEq

/-- The empty context `{}` (source lines 373 and 376). -/
def emptyCtx : Ctx := { modifier_class := none, rest := [] }

/-- Model of `JSON.parse(JSON.stringify(c))` on plain sample data: a structural
copy sharing nothing mutable with the original (source lines 551, 579, 588). -/
def jsonClone (c : Ctx) : Ctx :=
  { modifier_class := c.modifier_class, rest := c.rest }

/-- A compilation performed through `Twig.twigAsync`: an identity together
with either inline template text (`data:`) or a file path (`path:`). -/
inductive CompileEvent where
  | inline (id data : String)
  | fromFile (id path : String)
deriving DecidableEq

/-- The identity registered in the Twig template registry by a compilation. -/
def eventId : CompileEvent → String
  | CompileEvent.inline i _ => i
  | CompileEvent.fromFile i _ => i

/-- The compilations among `l` that loaded a template file under identity
`name` (used to speak about which file became the template for that name). -/
def fileEventsFor (name : String) (l : List CompileEvent) : List CompileEvent :=
  l.filter fun e => match e with
    | CompileEvent.fromFile i _ => i == name
    | CompileEvent.inline _ _ => false

/-- Model of `glob(source + '/**/' + name)`: the files of the root whose base
name is `name`, in the order the search yields them. -/
def globName (rootFiles : List String) (name : String) : List String :=
  rootFiles.filter (fun p => basenameStr p == name)

/-- The `findTemplates` array built in source lines 395-399: for each
configured source root, in configuration order, first the search for the
main file and then the search for the `kss-example-` file. -/
def findTemplates (sources : List (List String)) (name : String) : List (List String) :=
  sources.foldr
    (fun source acc => globName source name :: globName source ("kss-example-" ++ name) :: acc)
    []

/-- The mutable `template` object of `build` (source lines 368-377) together
with the `foundTemplate` / `foundExample` flags and the `compileTemplates`
accumulator of the glob-scan loop (lines 401-450). -/
structure TmplObj where
  name : String
  reference : String
  file : String
  markup : String
  context : Ctx
  exampleName : String
  exampleFile : String
  exampleContext : Ctx
  foundTemplate : Bool
  foundExample : Bool
  compiles : List CompileEvent
deriving DecidableEq

/-- One iteration of the inner `for (let file of files)` loop of source lines
407-448.  `ctxEnv` models the filesystem's `.json` sample files: the context a
`require` of the given path yields, if any (the `try`/`catch` fallback to `{}`
is the `Option.getD emptyCtx`). -/
def scanFile (ctxEnv : String → Option Ctx) (t : TmplObj) (f : String) : TmplObj :=
  if !t.foundTemplate && (basenameStr f == t.name) then
    { t with foundTemplate := true
             file := f
             compiles := t.compiles ++ [CompileEvent.fromFile t.name f]
             context := (ctxEnv (jsonPathFor f t.name)).getD emptyCtx }
  else if !t.foundExample && (basenameStr f == t.exampleName) then
    { t with foundExample := true
             exampleFile := f
             compiles := t.compiles ++ [CompileEvent.fromFile t.exampleName f]
             exampleContext := (ctxEnv (jsonPathFor f t.exampleName)).getD emptyCtx }
  else t

/-- The inner loop over one glob result list (source lines 407-448). -/
def scanFiles (ctxEnv : String → Option Ctx) (t : TmplObj) (files : List String) : TmplObj :=
  files.foldl (scanFile ctxEnv) t

/-- One iteration of `for (let files of globMatches)` with its
`if (!foundTemplate || !foundExample)` guard (source lines 405-406). -/
def scanStep (ctxEnv : String → Option Ctx) (t : TmplObj) (files : List String) : TmplObj :=
  if !t.foundTemplate || !t.foundExample then scanFiles ctxEnv t files else t

/-- The outer loop over all glob results (source lines 405-450). -/
def scanGlobMatches (ctxEnv : String → Option Ctx) (t : TmplObj)
    (globMatches : List (List String)) : TmplObj :=
  globMatches.foldl (scanStep ctxEnv) t

/-- The JS regex test `template.markup.match(/^[^\n]+\.twig$/)` of source line
380: the whole string is one or more non-newline characters followed by the
literal `.twig` (JS `$` without the `m` flag anchors at the very end). -/
def isFileReference (m : String) : Bool :=
  let cs := m.toList
  decide (5 < cs.length) && !(cs.contains '\n') && (cs.drop (cs.length - 5) == ".twig".toList)

/-- The value stored into `this.userTemplates[template.reference]` by
`saveTemplate` (source lines 344-353).  `exampleRef := none` models the JS
`false` stored when `template.exampleFile` is falsy. -/
structure UserTemplate where
  ref : String
  context : Ctx
  exampleRef : Option String
  exampleContext : Ctx
deriving DecidableEq

/-- Everything the per-section resolution of `build` produces for one section:
the saved `userTemplates` record, the compilations performed, the log lines
emitted, the final `template.markup` string and the `markupFile` custom
property set on the section (source lines 363-481). -/
structure ResolveOut where
  record : UserTemplate
  compiles : List CompileEvent
  logs : List String
  markupOut : String
  markupFileCustom : Option String
deriving DecidableEq

/-- The initial `template` object of source lines 368-377. -/
def initTmpl (reference markup : String) : TmplObj :=
  { name := reference, reference := reference, file := "", markup := markup
    context := emptyCtx, exampleName := "", exampleFile := "", exampleContext := emptyCtx
    foundTemplate := false, foundExample := false, compiles := [] }

/-- The inline branch of the markup check (source lines 380-387): the markup
text is compiled directly (`compileInline`) under the section's reference and
`saveTemplate` stores empty contexts and no example linkage. -/
def resolveInlineMarkup (verbose : Bool) (reference markup : String) : ResolveOut :=
  let t0 := initTmpl reference markup
  { record := { ref := t0.name, context := t0.context, exampleRef := none
                exampleContext := t0.exampleContext }
    compiles := [CompileEvent.inline t0.name t0.markup]
    logs := if verbose then [" - " ++ t0.reference ++ ": inline markup"] else []
    markupOut := t0.markup
    markupFileCustom := none }

/-- The `template` object as the file branch sets it up before the glob scan
(source lines 390-393). -/
def fileTmpl (reference markup : String) : TmplObj :=
  { initTmpl reference markup with
      file := markup
      name := basenameStr markup
      exampleName := "kss-example-" ++ basenameStr markup }

/-- The `template` object after the whole glob scan of source lines 401-450. -/
def scannedTmpl (ctxEnv : String → Option Ctx) (sources : List (List String))
    (reference markup : String) : TmplObj :=
  scanGlobMatches ctxEnv (fileTmpl reference markup)
    (findTemplates sources (basenameStr markup))

/-- The file branch of the per-section resolution (source lines 388-481):
glob scan, then the not-found fallbacks of lines 452-470, the logging of
lines 455-457 and 472-474, and `saveTemplate`. -/
def resolveFileMarkup (verbose : Bool) (ctxEnv : String → Option Ctx)
    (sources : List (List String)) (reference markup : String) : ResolveOut :=
  let t2 := scannedTmpl ctxEnv sources reference markup
  let t3 :=
    if !t2.foundTemplate && !t2.foundExample then
      let tm := { t2 with markup := t2.markup ++ " NOT FOUND!" }
      { tm with compiles := tm.compiles ++ [CompileEvent.inline tm.name tm.markup] }
    else if !t2.foundTemplate then
      { t2 with compiles :=
          t2.compiles ++ [CompileEvent.inline t2.name "\x7b# Cannot be an empty string. #\x7d"] }
    else t2
  let warnLogs :=
    if !t2.foundTemplate && !t2.foundExample && !verbose then
      ["WARNING: In section " ++ t3.reference ++ ", " ++ t3.markup]
    else []
  let verboseLogs := if verbose then [" - " ++ t3.reference ++ ": " ++ t3.markup] else []
  { record := { ref := t3.name, context := t3.context
                exampleRef := if t3.exampleFile ≠ "" then some t3.exampleName else none
                exampleContext := t3.exampleContext }
    compiles := t3.compiles
    logs := warnLogs ++ verboseLogs
    markupOut := t3.markup
    markupFileCustom := some markup }

/-- The per-section markup resolution of `build` (source lines 363-481): the
inline branch compiles the markup text under the section reference; the
file branch scans the glob results of every configured root and falls back to
an inline compile of the (annotated) markup when nothing is found.  Engine
compilation itself is external and modelled as succeeding; a `CompileError`
would abort the whole build (spec taxonomy) and is out of scope here. -/
def resolveMarkup (verbose : Bool) (ctxEnv : String → Option Ctx)
    (sources : List (List String)) (reference markup : String) : ResolveOut :=
  if !(isFileReference markup) then resolveInlineMarkup verbose reference markup
  else resolveFileMarkup verbose ctxEnv sources reference markup

/-- The three rendered artifacts `buildPage` computes for one section with
markup: `section.markup`, `section.example` and the `modifier.markup` of each
modifier, in order (source lines 543-593). -/
structure SectionOut where
  markup : String
  exampleView : String
  modifierMarkups : List String
deriving DecidableEq

/-- `getExampleTemplate`'s identity (source lines 564-574): the example
template when the record declares one, otherwise the main template. -/
def exampleTemplateRef (info : UserTemplate) : String :=
  match info.exampleRef with
  | some r => r
  | none => info.ref

/-- `templateContext` (source lines 564-574): the example sample context when
the record declares a distinct example, otherwise the main context. -/
def exampleTemplateCtx (info : UserTemplate) : Ctx :=
  match info.exampleRef with
  | some _ => info.exampleContext
  | none => info.context

/-- The body of the modifier loop (source lines 587-591) for one modifier:
clone `templateContext`, set `modifier_class` to the existing value (plus a
separating space when it is a non-empty string) followed by the modifier's
class name, and render with the example template (or the main template when
no distinct example exists). -/
def modifierRender (render : String → Ctx → String) (safeMarkup : Ctx → Ctx)
    (info : UserTemplate) (className : String) : String :=
  let d0 := jsonClone (exampleTemplateCtx info)
  let sep :=
    match d0.modifier_class with
    | some m => if m = "" then "" else m ++ " "
    | none => ""
  let d1 := { d0 with modifier_class := some (sep ++ className) }
  render (exampleTemplateRef info) (safeMarkup d1)

/-- The per-section rendering of `buildPage` (source lines 543-593).
`render` is the external Twig engine: identity and context to output string
(`template.render(...)`); `safeMarkup` is `this.safeMarkup`; `placeholder` is
`this.options.placeholder` (JS truthiness of a string is `≠ ""`).  Every
rendering starts from `JSON.parse(JSON.stringify(...))` of the stored context
(`jsonClone`); the stored record itself is only read. -/
def buildPageSection (render : String → Ctx → String) (safeMarkup : Ctx → Ctx)
    (placeholder : String) (info : UserTemplate) (modifiers : List String) : SectionOut :=
  -- let data = JSON.parse(JSON.stringify(templateInfo.context));  (line 551)
  let data0 := jsonClone info.context
  -- data.modifier_class = data.modifier_class || '';  (line 556)
  let mc := data0.modifier_class.getD ""
  let data1 := { data0 with modifier_class := some mc }
  -- if (section.modifiers.length !== 0 && this.options.placeholder) ... (557-558)
  let data2 :=
    if modifiers.length ≠ 0 ∧ placeholder ≠ "" then
      { data1 with modifier_class := some (mc ++ (if mc ≠ "" then " " else "") ++ placeholder) }
    else data1
  -- section.markup = template.render(this.safeMarkup(data));  (line 561)
  let markupOut := render info.ref (safeMarkup data2)
  -- section.example = section.markup;  (line 562)
  let exampleDefault := markupOut
  -- lines 577-586: overwrite the example only when an example ref exists.
  let exampleOut :=
    match info.exampleRef with
    | some r =>
      let d0 := jsonClone info.exampleContext
      let m := d0.modifier_class.getD ""
      let d1 := { d0 with modifier_class := some m }
      let d2 :=
        if modifiers.length ≠ 0 ∧ placeholder ≠ "" then
          { d1 with modifier_class := some (m ++ (if m ≠ "" then " " else "") ++ placeholder) }
        else d1
      render r (safeMarkup d2)
    | none => exampleDefault
  -- lines 587-591: one rendering per modifier, from a fresh copy each time.
  let modifierOuts := modifiers.map (modifierRender render safeMarkup info)
  { markup := markupOut, exampleView := exampleOut, modifierMarkups := modifierOuts }

/-- State-passing form of the per-section rendering: the second component is
the stored `userTemplates` record as it stands after the renderings.  In the
source every mutation targets the freshly cloned `data` objects or the
section/modifier output fields; `templateInfo` itself is never written
(lines 546-593), so the record passes through unchanged. -/
def buildPageSectionSt (render : String → Ctx → String) (safeMarkup : Ctx → Ctx)
    (placeholder : String) (info : UserTemplate) (modifiers : List String) :
    SectionOut × UserTemplate :=
  (buildPageSection render safeMarkup placeholder info modifiers, info)

/-- The page-level templates held on the builder (`this.templates`). -/
structure PageTemplates where
  indexT : Option String
  sectionT : Option String
  itemT : Option String
deriving DecidableEq

/-- The chained loading of `index.twig`, `section.twig` and `item.twig` in
`build` (source lines 263-316).  `envIndex`/`envSection`/`envItem` are what
`twigAsync` would deliver for each file (`none` = the load fails, e.g. the
file does not exist); `prior` is `this.templates` from previous builds.  Each
template is loaded only when still undefined; a failed `section.twig` load is
caught and replaced by `index.twig`, a failed `item.twig` load by
`section.twig` (always set by then) or `index.twig`.  The returned events are
the successful registrations in the Twig registry. -/
def loadPageTemplates (envIndex : String) (envSection envItem : Option String)
    (prior : PageTemplates) : PageTemplates × List CompileEvent :=
  let (tIdx, cIdx) :=
    match prior.indexT with
    | some t => (some t, ([] : List CompileEvent))
    | none => (some envIndex, [CompileEvent.fromFile "@builderTwig/index.twig" "index.twig"])
  let (tSec, cSec) :=
    match prior.sectionT with
    | some t => (some t, ([] : List CompileEvent))
    | none =>
      match envSection with
      | some t => (some t, [CompileEvent.fromFile "@builderTwig/section.twig" "section.twig"])
      | none => (tIdx, [])
  let (tItm, cItm) :=
    match prior.itemT with
    | some t => (some t, ([] : List CompileEvent))
    | none =>
      match envItem with
      | some t => (some t, [CompileEvent.fromFile "@builderTwig/item.twig" "item.twig"])
      | none => ((match tSec with | some s => some s | none => tIdx), [])
  ({ indexT := tIdx, sectionT := tSec, itemT := tItm }, cIdx ++ cSec ++ cItm)

/-- A section of the input style guide, as `build` consumes it. -/
structure SectionIn where
  reference : String
  markup : String
  modifiers : List String
deriving DecidableEq

/-- The per-section resolutions of one build (source lines 355-482): sections
without markup are skipped (line 363), every other section is resolved. -/
def sectionResolves (verbose : Bool) (ctxEnv : String → Option Ctx)
    (sources : List (List String)) (secs : List SectionIn) : List (String × ResolveOut) :=
  secs.foldr
    (fun s acc =>
      if s.markup = "" then acc
      else (s.reference, resolveMarkup verbose ctxEnv sources s.reference s.markup) :: acc)
    []

/-- The compilations the per-section resolutions of one build perform. -/
def sectionCompiles (verbose : Bool) (ctxEnv : String → Option Ctx)
    (sources : List (List String)) (secs : List SectionIn) : List CompileEvent :=
  (sectionResolves verbose ctxEnv sources secs).foldr (fun r acc => r.2.compiles ++ acc) []

/-- The builder's state across builds: `this.templates` survives, while
`this.userTemplates` and the Twig registry are rebuilt per build. -/
structure BuilderState where
  templates : PageTemplates
  registry : List String
  userTemplates : List (String × UserTemplate)
deriving DecidableEq

/-- One run of `build` (source lines 247-513), restricted to its compilation
and state effects: `this.userTemplates` is reset (line 249), the Twig registry
is reset (line 258) and then repopulated by this build's compilations, the
page templates are loaded only if still undefined (lines 263-316) and every
markup-bearing section is resolved (lines 355-482). -/
def buildStep (envIndex : String) (envSection envItem : Option String) (verbose : Bool)
    (ctxEnv : String → Option Ctx) (sources : List (List String)) (secs : List SectionIn)
    (st : BuilderState) : BuilderState × List CompileEvent :=
  let (pts, pageCompiles) := loadPageTemplates envIndex envSection envItem st.templates
  let resolves := sectionResolves verbose ctxEnv sources secs
  let secCompiles := resolves.foldr (fun r acc => r.2.compiles ++ acc) []
  let allCompiles := pageCompiles ++ secCompiles
  ({ templates := pts
     registry := allCompiles.map eventId
     userTemplates := resolves.map (fun r => (r.1, r.2.record)) },
   allCompiles)

/-- The result array of the concurrent searches, as `Promise.all` assembles
it: task `i`'s result is written into slot `i` when the task completes;
`arrival` is the completion order.  Slots, not completion times, key the
array. -/
def fillSlots {α : Type} (tasks : List α) (arrival : List Nat) : List (Option α) :=
  arrival.foldl (fun slots i => slots.set i tasks[i]?) (tasks.map fun _ => none)

/-- The join of `Promise.all`: available once every slot is filled. -/
def joinAll {α : Type} : List (Option α) → Option (List α)
  | [] => some []
  | none :: _ => none
  | some a :: rest => (joinAll rest).map fun l => a :: l

/-- The `Promise.all(findTemplates)` of source line 401 under completion
order `arrival`. -/
def runFindTemplates (sources : List (List String)) (name : String)
    (arrival : List Nat) : Option (List (List String)) :=
  joinAll (fillSlots (findTemplates sources name) arrival)

/-- The spec's classification condition for a file reference, as C8 words it:
"a single line with no embedded line breaks ending in the template file
extension (.twig)". -/
def c8FileRefClaim (m : String) : Bool :=
  !(m.toList.contains '\n') && (".twig".toList.isSuffixOf m.toList)

/-- The modifier rendering exactly as claim C7 words it: the modifier-class
field is set to "the existing value followed by a space and the modifier's
own class name". -/
def claimedModifierMarkup (render : String → Ctx → String) (safeMarkup : Ctx → Ctx)
    (info : UserTemplate) (className : String) : String :=
  let d := jsonClone (exampleTemplateCtx info)
  let existing := d.modifier_class.getD ""
  render (exampleTemplateRef info)
    (safeMarkup { d with modifier_class := some (existing ++ " " ++ className) })

/-- The modifier rendering as amended: the class name alone when the existing
modifier-class value is empty or absent, otherwise the existing value, a
space, and the class name. -/
def amendedModifierMarkup (render : String → Ctx → String) (safeMarkup : Ctx → Ctx)
    (info : UserTemplate) (className : String) : String :=
  let d := jsonClone (exampleTemplateCtx info)
  let existing := d.modifier_class.getD ""
  render (exampleTemplateRef info)
    (safeMarkup { d with
      modifier_class := some (if existing = "" then className else existing ++ " " ++ className) })

/-- A concrete engine for witnesses: rendering returns the context's
modifier-class value, making the injected class string observable. -/
def mcExtract : String → Ctx → String := fun _ c => c.modifier_class.getD ""

/-! ### Helper lemmas -/

theorem string_empty_append (s : String) : "" ++ s = s := by
  cases s
  rfl

theorem kss_example_ne (n : String) : "kss-example-" ++ n ≠ n := by
  intro h
  have h2 := String.length_append "kss-example-" n
  rw [h] at h2
  have h3 : "kss-example-".length = 12 := by decide
  omega

theorem mem_globName {root : List String} {name f : String}
    (h : f ∈ globName root name) : basenameStr f = name := by
  have := (List.mem_filter.mp h).2
  exact eq_of_beq this

theorem scanFile_const (c : String → Option Ctx) (t : TmplObj) (f : String) :
    (scanFile c t f).name = t.name ∧ (scanFile c t f).exampleName = t.exampleName := by
  unfold scanFile
  split
  · exact ⟨rfl, rfl⟩
  · split
    · exact ⟨rfl, rfl⟩
    · exact ⟨rfl, rfl⟩

theorem scanFiles_const (c : String → Option Ctx) (files : List String) :
    ∀ t : TmplObj, (scanFiles c t files).name = t.name ∧
      (scanFiles c t files).exampleName = t.exampleName := by
  induction files with
  | nil => intro t; exact ⟨rfl, rfl⟩
  | cons f fs ih =>
    intro t
    have h1 := scanFile_const c t f
    have h2 := ih (scanFile c t f)
    simp only [scanFiles, List.foldl_cons] at *
    exact ⟨h2.1.trans h1.1, h2.2.trans h1.2⟩

theorem scanStep_const (c : String → Option Ctx) (files : List String) (t : TmplObj) :
    (scanStep c t files).name = t.name ∧ (scanStep c t files).exampleName = t.exampleName := by
  unfold scanStep
  split
  · exact scanFiles_const c files t
  · exact ⟨rfl, rfl⟩

theorem scanGM_const (c : String → Option Ctx) (gms : List (List String)) :
    ∀ t : TmplObj, (scanGlobMatches c t gms).name = t.name ∧
      (scanGlobMatches c t gms).exampleName = t.exampleName := by
  induction gms with
  | nil => intro t; exact ⟨rfl, rfl⟩
  | cons g gs ih =>
    intro t
    have h1 := scanStep_const c g t
    have h2 := ih (scanStep c t g)
    simp only [scanGlobMatches, List.foldl_cons] at *
    exact ⟨h2.1.trans h1.1, h2.2.trans h1.2⟩

theorem scanFile_main_pres (c : String → Option Ctx) (t : TmplObj) (f : String)
    (hT : t.foundTemplate = true) (hne : t.exampleName ≠ t.name) :
    (scanFile c t f).foundTemplate = true ∧ (scanFile c t f).file = t.file ∧
      fileEventsFor t.name (scanFile c t f).compiles = fileEventsFor t.name t.compiles := by
  have hbeq : (t.exampleName == t.name) = false := beq_eq_false_iff_ne.mpr hne
  unfold scanFile
  simp only [hT, Bool.not_true, Bool.false_and, Bool.false_eq_true, if_false]
  split
  · refine ⟨rfl, rfl, ?_⟩
    simp [fileEventsFor, List.filter_append, hbeq]
  · exact ⟨hT, rfl, rfl⟩

theorem scanFiles_main_pres (c : String → Option Ctx) (files : List String) :
    ∀ t : TmplObj, t.foundTemplate = true → t.exampleName ≠ t.name →
      (scanFiles c t files).foundTemplate = true ∧ (scanFiles c t files).file = t.file ∧
        fileEventsFor t.name (scanFiles c t files).compiles = fileEventsFor t.name t.compiles := by
  induction files with
  | nil => intro t hT _; exact ⟨hT, rfl, rfl⟩
  | cons f fs ih =>
    intro t hT hne
    have hstep := scanFile_main_pres c t f hT hne
    have hconst := scanFile_const c t f
    have hrec := ih (scanFile c t f) hstep.1 (by rw [hconst.1, hconst.2]; exact hne)
    simp only [scanFiles, List.foldl_cons] at *
    refine ⟨hrec.1, hrec.2.1.trans hstep.2.1, ?_⟩
    rw [hconst.1] at hrec
    exact hrec.2.2.trans hstep.2.2

theorem scanStep_main_pres (c : String → Option Ctx) (files : List String) (t : TmplObj)
    (hT : t.foundTemplate = true) (hne : t.exampleName ≠ t.name) :
    (scanStep c t files).foundTemplate = true ∧ (scanStep c t files).file = t.file ∧
      fileEventsFor t.name (scanStep c t files).compiles = fileEventsFor t.name t.compiles := by
  unfold scanStep
  split
  · exact scanFiles_main_pres c files t hT hne
  · exact ⟨hT, rfl, rfl⟩

theorem scanGM_main_pres (c : String → Option Ctx) (gms : List (List String)) :
    ∀ t : TmplObj, t.foundTemplate = true → t.exampleName ≠ t.name →
      (scanGlobMatches c t gms).foundTemplate = true ∧
        (scanGlobMatches c t gms).file = t.file ∧
        fileEventsFor t.name (scanGlobMatches c t gms).compiles =
          fileEventsFor t.name t.compiles := by
  induction gms with
  | nil => intro t hT _; exact ⟨hT, rfl, rfl⟩
  | cons g gs ih =>
    intro t hT hne
    have hstep := scanStep_main_pres c g t hT hne
    have hconst := scanStep_const c g t
    have hrec := ih (scanStep c t g) hstep.1 (by rw [hconst.1, hconst.2]; exact hne)
    simp only [scanGlobMatches, List.foldl_cons] at *
    refine ⟨hrec.1, hrec.2.1.trans hstep.2.1, ?_⟩
    rw [hconst.1] at hrec
    exact hrec.2.2.trans hstep.2.2

theorem scanFile_main_absent (c : String → Option Ctx) (t : TmplObj) (f : String)
    (hT : t.foundTemplate = false) (hb : (basenameStr f == t.name) = false)
    (hne : t.exampleName ≠ t.name) :
    (scanFile c t f).foundTemplate = false ∧ (scanFile c t f).file = t.file ∧
      fileEventsFor t.name (scanFile c t f).compiles = fileEventsFor t.name t.compiles := by
  have hbeq : (t.exampleName == t.name) = false := beq_eq_false_iff_ne.mpr hne
  unfold scanFile
  simp only [hb, Bool.and_false, Bool.false_eq_true, if_false]
  split
  · refine ⟨hT, rfl, ?_⟩
    simp [fileEventsFor, List.filter_append, hbeq]
  · exact ⟨hT, rfl, rfl⟩

theorem scanFiles_main_absent (c : String → Option Ctx) (files : List String) :
    ∀ t : TmplObj, t.foundTemplate = false →
      (∀ f ∈ files, (basenameStr f == t.name) = false) → t.exampleName ≠ t.name →
      (scanFiles c t files).foundTemplate = false ∧ (scanFiles c t files).file = t.file ∧
        fileEventsFor t.name (scanFiles c t files).compiles = fileEventsFor t.name t.compiles := by
  induction files with
  | nil => intro t hT _ _; exact ⟨hT, rfl, rfl⟩
  | cons f fs ih =>
    intro t hT hb hne
    have hstep := scanFile_main_absent c t f hT (hb f (List.mem_cons_self f fs)) hne
    have hconst := scanFile_const c t f
    have hrec := ih (scanFile c t f) hstep.1
      (by intro g hg; rw [hconst.1]; exact hb g (List.mem_cons_of_mem f hg))
      (by rw [hconst.1, hconst.2]; exact hne)
    simp only [scanFiles, List.foldl_cons] at *
    refine ⟨hrec.1, hrec.2.1.trans hstep.2.1, ?_⟩
    rw [hconst.1] at hrec
    exact hrec.2.2.trans hstep.2.2

theorem scanFiles_main_finds (c : String → Option Ctx) (t : TmplObj) (f : String)
    (fs : List String) (hT : t.foundTemplate = false) (hb : (basenameStr f == t.name) = true)
    (hne : t.exampleName ≠ t.name) :
    (scanFiles c t (f :: fs)).foundTemplate = true ∧ (scanFiles c t (f :: fs)).file = f ∧
      fileEventsFor t.name (scanFiles c t (f :: fs)).compiles =
        fileEventsFor t.name t.compiles ++ [CompileEvent.fromFile t.name f] := by
  have hfire : scanFile c t f =
      { t with foundTemplate := true, file := f
               compiles := t.compiles ++ [CompileEvent.fromFile t.name f]
               context := (c (jsonPathFor f t.name)).getD emptyCtx } := by
    unfold scanFile
    simp [hT, hb]
  have hrest := scanFiles_main_pres c fs (scanFile c t f)
    (by rw [hfire]) (by rw [hfire]; exact hne)
  simp only [scanFiles, List.foldl_cons] at *
  rw [hfire]
  rw [hfire] at hrest
  simp only at hrest
  refine ⟨hrest.1, hrest.2.1, ?_⟩
  rw [hrest.2.2]
  simp [fileEventsFor, List.filter_append]

theorem findTemplates_cons (s : List String) (ss : List (List String)) (n : String) :
    findTemplates (s :: ss) n =
      globName s n :: globName s ("kss-example-" ++ n) :: findTemplates ss n := rfl

theorem scanGlobMatches_cons (c : String → Option Ctx) (t : TmplObj) (g : List String)
    (gs : List (List String)) :
    scanGlobMatches c t (g :: gs) = scanGlobMatches c (scanStep c t g) gs := rfl

theorem scanStep_nil (c : String → Option Ctx) (t : TmplObj) : scanStep c t [] = t := by
  unfold scanStep scanFiles
  simp

theorem scanStep_of_notFoundT (c : String → Option Ctx) (t : TmplObj) (files : List String)
    (hT : t.foundTemplate = false) : scanStep c t files = scanFiles c t files := by
  unfold scanStep
  simp [hT]

theorem scanStep_of_notFoundE (c : String → Option Ctx) (t : TmplObj) (files : List String)
    (hE : t.foundExample = false) : scanStep c t files = scanFiles c t files := by
  unfold scanStep
  simp [hE]

theorem scanGM_main_found (c : String → Option Ctx) :
    ∀ (pre : List (List String)) (src : List String) (rest : List (List String))
      (f : String) (fs : List String) (t : TmplObj),
      t.foundTemplate = false → t.exampleName ≠ t.name →
      (∀ s ∈ pre, globName s t.name = []) →
      globName src t.name = f :: fs →
      (scanGlobMatches c t (findTemplates (pre ++ src :: rest) t.name)).foundTemplate = true ∧
      (scanGlobMatches c t (findTemplates (pre ++ src :: rest) t.name)).file = f ∧
      fileEventsFor t.name
          (scanGlobMatches c t (findTemplates (pre ++ src :: rest) t.name)).compiles =
        fileEventsFor t.name t.compiles ++ [CompileEvent.fromFile t.name f] := by
  intro pre
  induction pre with
  | nil =>
    intro src rest f fs t hT hne _ hsrc
    have hbf : (basenameStr f == t.name) = true := by
      have : f ∈ globName src t.name := by rw [hsrc]; exact List.mem_cons_self f fs
      exact beq_iff_eq.mpr (mem_globName this)
    rw [List.nil_append, findTemplates_cons, scanGlobMatches_cons,
      scanStep_of_notFoundT c t _ hT, hsrc]
    have hfind := scanFiles_main_finds c t f fs hT hbf hne
    have hconst := scanFiles_const c (f :: fs) t
    have hpres := scanGM_main_pres c
      (globName src ("kss-example-" ++ t.name) :: findTemplates rest t.name)
      (scanFiles c t (f :: fs)) hfind.1 (by rw [hconst.1, hconst.2]; exact hne)
    refine ⟨hpres.1, hpres.2.1.trans hfind.2.1, ?_⟩
    rw [hconst.1] at hpres
    rw [hpres.2.2]
    exact hfind.2.2
  | cons s pre' ih =>
    intro src rest f fs t hT hne hpre hsrc
    rw [List.cons_append, findTemplates_cons, scanGlobMatches_cons,
      hpre s (List.mem_cons_self s pre'), scanStep_nil, scanGlobMatches_cons,
      scanStep_of_notFoundT c t _ hT]
    have habs := scanFiles_main_absent c (globName s ("kss-example-" ++ t.name)) t hT
      (by
        intro g hg
        have hgb := mem_globName hg
        rw [hgb]
        exact beq_eq_false_iff_ne.mpr (kss_example_ne t.name))
      hne
    have hconst := scanFiles_const c (globName s ("kss-example-" ++ t.name)) t
    have hrec := ih src rest f fs (scanFiles c t (globName s ("kss-example-" ++ t.name)))
      habs.1
      (by rw [hconst.1, hconst.2]; exact hne)
      (by intro s2 hs2; rw [hconst.1]; exact hpre s2 (List.mem_cons_of_mem s hs2))
      (by rw [hconst.1]; exact hsrc)
    rw [hconst.1] at hrec
    refine ⟨hrec.1, hrec.2.1, ?_⟩
    rw [hrec.2.2, habs.2.2]

theorem scanFile_ex_pres (c : String → Option Ctx) (t : TmplObj) (f : String)
    (hE : t.foundExample = true) (hne : t.name ≠ t.exampleName) :
    (scanFile c t f).foundExample = true ∧ (scanFile c t f).exampleFile = t.exampleFile ∧
      fileEventsFor t.exampleName (scanFile c t f).compiles =
        fileEventsFor t.exampleName t.compiles := by
  have hbeq : (t.name == t.exampleName) = false := beq_eq_false_iff_ne.mpr hne
  unfold scanFile
  simp only [hE, Bool.not_true, Bool.false_and, Bool.false_eq_true, if_false]
  split
  · refine ⟨rfl, rfl, ?_⟩
    simp [fileEventsFor, List.filter_append, hbeq]
  · exact ⟨hE, rfl, rfl⟩

theorem scanFiles_ex_pres (c : String → Option Ctx) (files : List String) :
    ∀ t : TmplObj, t.foundExample = true → t.name ≠ t.exampleName →
      (scanFiles c t files).foundExample = true ∧
        (scanFiles c t files).exampleFile = t.exampleFile ∧
        fileEventsFor t.exampleName (scanFiles c t files).compiles =
          fileEventsFor t.exampleName t.compiles := by
  induction files with
  | nil => intro t hE _; exact ⟨hE, rfl, rfl⟩
  | cons f fs ih =>
    intro t hE hne
    have hstep := scanFile_ex_pres c t f hE hne
    have hconst := scanFile_const c t f
    have hrec := ih (scanFile c t f) hstep.1 (by rw [hconst.1, hconst.2]; exact hne)
    simp only [scanFiles, List.foldl_cons] at *
    refine ⟨hrec.1, hrec.2.1.trans hstep.2.1, ?_⟩
    rw [hconst.2] at hrec
    exact hrec.2.2.trans hstep.2.2

theorem scanStep_ex_pres (c : String → Option Ctx) (files : List String) (t : TmplObj)
    (hE : t.foundExample = true) (hne : t.name ≠ t.exampleName) :
    (scanStep c t files).foundExample = true ∧
      (scanStep c t files).exampleFile = t.exampleFile ∧
      fileEventsFor t.exampleName (scanStep c t files).compiles =
        fileEventsFor t.exampleName t.compiles := by
  unfold scanStep
  split
  · exact scanFiles_ex_pres c files t hE hne
  · exact ⟨hE, rfl, rfl⟩

theorem scanGM_ex_pres (c : String → Option Ctx) (gms : List (List String)) :
    ∀ t : TmplObj, t.foundExample = true → t.name ≠ t.exampleName →
      (scanGlobMatches c t gms).foundExample = true ∧
        (scanGlobMatches c t gms).exampleFile = t.exampleFile ∧
        fileEventsFor t.exampleName (scanGlobMatches c t gms).compiles =
          fileEventsFor t.exampleName t.compiles := by
  induction gms with
  | nil => intro t hE _; exact ⟨hE, rfl, rfl⟩
  | cons g gs ih =>
    intro t hE hne
    have hstep := scanStep_ex_pres c g t hE hne
    have hconst := scanStep_const c g t
    have hrec := ih (scanStep c t g) hstep.1 (by rw [hconst.1, hconst.2]; exact hne)
    simp only [scanGlobMatches, List.foldl_cons] at *
    refine ⟨hrec.1, hrec.2.1.trans hstep.2.1, ?_⟩
    rw [hconst.2] at hrec
    exact hrec.2.2.trans hstep.2.2

theorem scanFile_ex_absent (c : String → Option Ctx) (t : TmplObj) (f : String)
    (hE : t.foundExample = false) (hb : (basenameStr f == t.exampleName) = false)
    (hne : t.name ≠ t.exampleName) :
    (scanFile c t f).foundExample = false ∧ (scanFile c t f).exampleFile = t.exampleFile ∧
      fileEventsFor t.exampleName (scanFile c t f).compiles =
        fileEventsFor t.exampleName t.compiles := by
  have hbeq : (t.name == t.exampleName) = false := beq_eq_false_iff_ne.mpr hne
  unfold scanFile
  simp only [hb, Bool.and_false, Bool.false_eq_true, if_false]
  split
  · refine ⟨hE, rfl, ?_⟩
    simp [fileEventsFor, List.filter_append, hbeq]
  · exact ⟨hE, rfl, rfl⟩

theorem scanFiles_ex_absent (c : String → Option Ctx) (files : List String) :
    ∀ t : TmplObj, t.foundExample = false →
      (∀ f ∈ files, (basenameStr f == t.exampleName) = false) → t.name ≠ t.exampleName →
      (scanFiles c t files).foundExample = false ∧
        (scanFiles c t files).exampleFile = t.exampleFile ∧
        fileEventsFor t.exampleName (scanFiles c t files).compiles =
          fileEventsFor t.exampleName t.compiles := by
  induction files with
  | nil => intro t hE _ _; exact ⟨hE, rfl, rfl⟩
  | cons f fs ih =>
    intro t hE hb hne
    have hstep := scanFile_ex_absent c t f hE (hb f (List.mem_cons_self f fs)) hne
    have hconst := scanFile_const c t f
    have hrec := ih (scanFile c t f) hstep.1
      (by intro g hg; rw [hconst.2]; exact hb g (List.mem_cons_of_mem f hg))
      (by rw [hconst.1, hconst.2]; exact hne)
    simp only [scanFiles, List.foldl_cons] at *
    refine ⟨hrec.1, hrec.2.1.trans hstep.2.1, ?_⟩
    rw [hconst.2] at hrec
    exact hrec.2.2.trans hstep.2.2

theorem scanFiles_ex_finds (c : String → Option Ctx) (t : TmplObj) (f : String)
    (fs : List String) (hE : t.foundExample = false)
    (hb : (basenameStr f == t.exampleName) = true)
    (hbn : (basenameStr f == t.name) = false) (hne : t.name ≠ t.exampleName) :
    (scanFiles c t (f :: fs)).foundExample = true ∧ (scanFiles c t (f :: fs)).exampleFile = f ∧
      fileEventsFor t.exampleName (scanFiles c t (f :: fs)).compiles =
        fileEventsFor t.exampleName t.compiles ++ [CompileEvent.fromFile t.exampleName f] := by
  have hfire : scanFile c t f =
      { t with foundExample := true, exampleFile := f
               compiles := t.compiles ++ [CompileEvent.fromFile t.exampleName f]
               exampleContext := (c (jsonPathFor f t.exampleName)).getD emptyCtx } := by
    unfold scanFile
    simp [hbn, hE, hb]
  have hrest := scanFiles_ex_pres c fs (scanFile c t f)
    (by rw [hfire]) (by rw [hfire]; exact hne)
  simp only [scanFiles, List.foldl_cons] at *
  rw [hfire]
  rw [hfire] at hrest
  simp only at hrest
  refine ⟨hrest.1, hrest.2.1, ?_⟩
  rw [hrest.2.2]
  simp [fileEventsFor, List.filter_append]

theorem scanGM_ex_found (c : String → Option Ctx) :
    ∀ (pre : List (List String)) (src : List String) (rest : List (List String))
      (f : String) (fs : List String) (t : TmplObj),
      t.foundExample = false → t.name ≠ t.exampleName →
      t.exampleName = "kss-example-" ++ t.name →
      (∀ s ∈ pre, globName s ("kss-example-" ++ t.name) = []) →
      globName src ("kss-example-" ++ t.name) = f :: fs →
      (scanGlobMatches c t (findTemplates (pre ++ src :: rest) t.name)).foundExample = true ∧
      (scanGlobMatches c t (findTemplates (pre ++ src :: rest) t.name)).exampleFile = f ∧
      fileEventsFor t.exampleName
          (scanGlobMatches c t (findTemplates (pre ++ src :: rest) t.name)).compiles =
        fileEventsFor t.exampleName t.compiles ++
          [CompileEvent.fromFile t.exampleName f] := by
  intro pre
  induction pre with
  | nil =>
    intro src rest f fs t hE hne hEx _ hsrc
    have hbf : basenameStr f = "kss-example-" ++ t.name := by
      have hmem : f ∈ globName src ("kss-example-" ++ t.name) := by
        rw [hsrc]
        exact List.mem_cons_self f fs
      exact mem_globName hmem
    rw [List.nil_append, findTemplates_cons, scanGlobMatches_cons,
      scanStep_of_notFoundE c t _ hE]
    -- first, the main glob list of `src` is scanned; it cannot contain the
    -- example name, so the example side of the state is untouched.
    have habs := scanFiles_ex_absent c (globName src t.name) t hE
      (by
        intro g hg
        rw [mem_globName hg, hEx]
        exact beq_eq_false_iff_ne.mpr fun h => kss_example_ne t.name h.symm)
      hne
    have hconst := scanFiles_const c (globName src t.name) t
    set t2 := scanFiles c t (globName src t.name) with ht2
    rw [scanGlobMatches_cons, scanStep_of_notFoundE c t2 _ habs.1, hsrc]
    have hfind := scanFiles_ex_finds c t2 f fs habs.1
      (by rw [hconst.2, hEx, hbf]; exact beq_self_eq_true _)
      (by rw [hconst.1, hbf]; exact beq_eq_false_iff_ne.mpr (kss_example_ne t.name))
      (by rw [hconst.1, hconst.2]; exact hne)
    have hconst3 := scanFiles_const c (f :: fs) t2
    have hpres := scanGM_ex_pres c (findTemplates rest t.name) (scanFiles c t2 (f :: fs))
      hfind.1 (by rw [hconst3.1, hconst3.2, hconst.1, hconst.2]; exact hne)
    refine ⟨hpres.1, hpres.2.1.trans hfind.2.1, ?_⟩
    rw [hconst3.2, hconst.2] at hpres
    rw [hpres.2.2]
    rw [hconst.2] at hfind
    rw [hfind.2.2, habs.2.2]
  | cons s pre' ih =>
    intro src rest f fs t hE hne hEx hpre hsrc
    rw [List.cons_append, findTemplates_cons, scanGlobMatches_cons,
      scanStep_of_notFoundE c t _ hE]
    have habs := scanFiles_ex_absent c (globName s t.name) t hE
      (by
        intro g hg
        rw [mem_globName hg, hEx]
        exact beq_eq_false_iff_ne.mpr fun h => kss_example_ne t.name h.symm)
      hne
    have hconst := scanFiles_const c (globName s t.name) t
    set t2 := scanFiles c t (globName s t.name) with ht2
    rw [scanGlobMatches_cons]
    have hnilE : globName s ("kss-example-" ++ t.name) = [] :=
      hpre s (List.mem_cons_self s pre')
    rw [hnilE, scanStep_nil]
    have hrec := ih src rest f fs t2 habs.1
      (by rw [hconst.1, hconst.2]; exact hne)
      (by rw [hconst.1, hconst.2]; exact hEx)
      (by intro s2 hs2; rw [hconst.1]; exact hpre s2 (List.mem_cons_of_mem s hs2))
      (by rw [hconst.1]; exact hsrc)
    rw [hconst.1, hconst.2] at hrec
    refine ⟨hrec.1, hrec.2.1, ?_⟩
    rw [hrec.2.2, habs.2.2]

theorem fill_aux_length {α : Type} (tasks : List α) :
    ∀ (arr : List Nat) (slots : List (Option α)),
      (arr.foldl (fun s i => s.set i tasks[i]?) slots).length = slots.length := by
  intro arr
  induction arr with
  | nil => intro slots; rfl
  | cons i arr ih =>
    intro slots
    simp only [List.foldl_cons]
    rw [ih (slots.set i tasks[i]?), List.length_set]

theorem fill_aux_not_mem {α : Type} (tasks : List α) :
    ∀ (arr : List Nat) (slots : List (Option α)) (j : Nat), j ∉ arr →
      (arr.foldl (fun s i => s.set i tasks[i]?) slots)[j]? = slots[j]? := by
  intro arr
  induction arr with
  | nil => intro slots j _; rfl
  | cons i arr ih =>
    intro slots j hj
    simp only [List.mem_cons, not_or] at hj
    simp only [List.foldl_cons]
    rw [ih (slots.set i tasks[i]?) j hj.2, List.getElem?_set_ne (fun h => hj.1 h.symm)]

theorem fill_aux_mem {α : Type} (tasks : List α) :
    ∀ (arr : List Nat) (slots : List (Option α)) (j : Nat), j ∈ arr → j < slots.length →
      (arr.foldl (fun s i => s.set i tasks[i]?) slots)[j]? = some tasks[j]? := by
  intro arr
  induction arr with
  | nil => intro slots j hj _; exact absurd hj (List.not_mem_nil j)
  | cons i arr ih =>
    intro slots j hj hlen
    simp only [List.foldl_cons]
    by_cases hmem : j ∈ arr
    · exact ih (slots.set i tasks[i]?) j hmem (by rw [List.length_set]; exact hlen)
    · have hij : j = i := by
        rcases List.mem_cons.mp hj with h | h
        · exact h
        · exact absurd h hmem
      subst hij
      rw [fill_aux_not_mem tasks arr _ j hmem, List.getElem?_set_self hlen]

theorem fillSlots_covering {α : Type} (tasks : List α) (arrival : List Nat)
    (hcov : ∀ j, j < tasks.length → j ∈ arrival) :
    fillSlots tasks arrival = tasks.map some := by
  apply List.ext_getElem?
  intro n
  by_cases hn : n < tasks.length
  · unfold fillSlots
    rw [fill_aux_mem tasks arrival _ n (hcov n hn) (by rw [List.length_map]; exact hn)]
    simp [List.getElem?_map, List.getElem?_eq_getElem hn]
  · have h1 : (fillSlots tasks arrival)[n]? = none := by
      apply List.getElem?_eq_none
      unfold fillSlots
      rw [fill_aux_length, List.length_map]
      exact Nat.le_of_not_lt hn
    have h2 : (tasks.map (some : α → Option α))[n]? = none := by
      apply List.getElem?_eq_none
      rw [List.length_map]
      exact Nat.le_of_not_lt hn
    rw [h1, h2]

theorem joinAll_map_some {α : Type} (l : List α) : joinAll (l.map some) = some l := by
  induction l with
  | nil => rfl
  | cons a l ih => simp [joinAll, ih]

theorem runFindTemplates_covering (sources : List (List String)) (name : String)
    (arrival : List Nat)
    (hcov : ∀ j, j < (findTemplates sources name).length → j ∈ arrival) :
    runFindTemplates sources name arrival = some (findTemplates sources name) := by
  unfold runFindTemplates
  rw [fillSlots_covering _ _ hcov, joinAll_map_some]

theorem kss_example_ne_empty (n : String) : "kss-example-" ++ n ≠ "" := by
  intro h
  have h2 := String.length_append "kss-example-" n
  rw [h] at h2
  have h3 : "kss-example-".length = 12 := by decide
  have h4 : "".length = 0 := by decide
  omega

theorem resolveMarkup_eq_file (v : Bool) (c : String → Option Ctx)
    (s : List (List String)) (r m : String) (hfile : isFileReference m = true) :
    resolveMarkup v c s r m = resolveFileMarkup v c s r m := by
  simp [resolveMarkup, hfile]

theorem resolveMarkup_eq_inline (v : Bool) (c : String → Option Ctx)
    (s : List (List String)) (r m : String) (hfile : isFileReference m = false) :
    resolveMarkup v c s r m = resolveInlineMarkup v r m := by
  simp [resolveMarkup, hfile]

theorem resolveFileMarkup_compiles_of_found (v : Bool) (c : String → Option Ctx)
    (s : List (List String)) (r m : String)
    (hT : (scannedTmpl c s r m).foundTemplate = true) :
    (resolveFileMarkup v c s r m).compiles = (scannedTmpl c s r m).compiles := by
  simp [resolveFileMarkup, hT]

theorem resolveFileMarkup_exampleRef_of_found (v : Bool) (c : String → Option Ctx)
    (s : List (List String)) (r m : String)
    (hT : (scannedTmpl c s r m).foundTemplate = true) :
    (resolveFileMarkup v c s r m).record.exampleRef =
      if (scannedTmpl c s r m).exampleFile ≠ "" then some (scannedTmpl c s r m).exampleName
      else none := by
  simp [resolveFileMarkup, hT]

/-- C1: for a section whose markup is a file reference, when several
configured source roots contain a file with the referenced name, the template
compiled for the section's main identity is the first match of the first root
(in configuration order) that has one — and the joined result of the
concurrent per-root searches is the configuration-ordered array for every
completion order that delivers all searches, so search latency cannot reorder
the winner. -/
theorem c1_first_configured_root_wins
    (verbose : Bool) (ctxEnv : String → Option Ctx) (reference markup : String)
    (pre : List (List String)) (src : List String) (rest : List (List String))
    (f : String) (fs : List String) (arrival : List Nat)
    (hfile : isFileReference markup = true)
    (hcov : ∀ j, j < (findTemplates (pre ++ src :: rest) (basenameStr markup)).length →
      j ∈ arrival)
    (hpre : ∀ s ∈ pre, globName s (basenameStr markup) = [])
    (hsrc : globName src (basenameStr markup) = f :: fs) :
    runFindTemplates (pre ++ src :: rest) (basenameStr markup) arrival
        = some (findTemplates (pre ++ src :: rest) (basenameStr markup)) ∧
    fileEventsFor (basenameStr markup)
        (resolveMarkup verbose ctxEnv (pre ++ src :: rest) reference markup).compiles
      = [CompileEvent.fromFile (basenameStr markup) f] := by
  constructor
  · exact runFindTemplates_covering _ _ _ hcov
  · rw [resolveMarkup_eq_file _ _ _ _ _ hfile]
    have hmain := scanGM_main_found ctxEnv pre src rest f fs (fileTmpl reference markup)
      rfl (kss_example_ne (basenameStr markup)) hpre hsrc
    rw [resolveFileMarkup_compiles_of_found _ _ _ _ _ hmain.1]
    exact hmain.2.2

/-- Witness for C1: two roots both contain `button.twig`; the first
configured root wins, even with the completion order fully reversed. -/
theorem c1_first_configured_root_wins_witness :
    isFileReference "button.twig" = true ∧
    (runFindTemplates [["r0/button.twig"], ["r1/button.twig"]] (basenameStr "button.twig")
          [3, 2, 1, 0]
        = some (findTemplates [["r0/button.twig"], ["r1/button.twig"]]
            (basenameStr "button.twig")) ∧
      fileEventsFor (basenameStr "button.twig")
          (resolveMarkup false (fun _ => none) [["r0/button.twig"], ["r1/button.twig"]]
            "1.1" "button.twig").compiles
        = [CompileEvent.fromFile (basenameStr "button.twig") "r0/button.twig"]) :=
  ⟨by decide,
    c1_first_configured_root_wins false (fun _ => none) "1.1" "button.twig"
      [] ["r0/button.twig"] [["r1/button.twig"]] "r0/button.twig" [] [3, 2, 1, 0]
      (by decide) (by decide) (by decide) (by decide)⟩

/-- C2: the main-template search and the example-template search are resolved
independently: the main identity is compiled from the first configured root
containing the main name, the example identity from the first configured root
containing the `kss-example-` name — the two roots need not be the same — and
the saved record links the example under its own identity. -/
theorem c2_independent_example_resolution
    (verbose : Bool) (ctxEnv : String → Option Ctx) (reference markup : String)
    (sources preM restM preE restE : List (List String)) (srcM srcE : List String)
    (fM fE : String) (fsM fsE : List String)
    (hfile : isFileReference markup = true)
    (hM : sources = preM ++ srcM :: restM)
    (hE : sources = preE ++ srcE :: restE)
    (hpreM : ∀ s ∈ preM, globName s (basenameStr markup) = [])
    (hsrcM : globName srcM (basenameStr markup) = fM :: fsM)
    (hpreE : ∀ s ∈ preE, globName s ("kss-example-" ++ basenameStr markup) = [])
    (hsrcE : globName srcE ("kss-example-" ++ basenameStr markup) = fE :: fsE) :
    fileEventsFor (basenameStr markup)
        (resolveMarkup verbose ctxEnv sources reference markup).compiles
      = [CompileEvent.fromFile (basenameStr markup) fM] ∧
    fileEventsFor ("kss-example-" ++ basenameStr markup)
        (resolveMarkup verbose ctxEnv sources reference markup).compiles
      = [CompileEvent.fromFile ("kss-example-" ++ basenameStr markup) fE] ∧
    (resolveMarkup verbose ctxEnv sources reference markup).record.exampleRef
      = some ("kss-example-" ++ basenameStr markup) := by
  have hmain := scanGM_main_found ctxEnv preM srcM restM fM fsM (fileTmpl reference markup)
    rfl (kss_example_ne (basenameStr markup)) hpreM hsrcM
  have hex := scanGM_ex_found ctxEnv preE srcE restE fE fsE (fileTmpl reference markup)
    rfl (fun h => kss_example_ne (basenameStr markup) h.symm) rfl hpreE hsrcE
  rw [resolveMarkup_eq_file _ _ _ _ _ hfile]
  subst hM
  have hT : (scannedTmpl ctxEnv (preM ++ srcM :: restM) reference markup).foundTemplate
      = true := hmain.1
  refine ⟨?_, ?_, ?_⟩
  · rw [resolveFileMarkup_compiles_of_found _ _ _ _ _ hT]
    exact hmain.2.2
  · rw [resolveFileMarkup_compiles_of_found _ _ _ _ _ hT]
    have := hex.2.2
    rw [← hE] at this
    exact this
  · rw [resolveFileMarkup_exampleRef_of_found _ _ _ _ _ hT]
    have hfe : (scannedTmpl ctxEnv (preM ++ srcM :: restM) reference markup).exampleFile
        = fE := by
      have := hex.2.1
      rw [hE]
      exact this
    have hfeNe : fE ≠ "" := by
      intro h0
      have hb : basenameStr fE = "kss-example-" ++ basenameStr markup := by
        have hmem : fE ∈ globName srcE ("kss-example-" ++ basenameStr markup) := by
          rw [hsrcE]
          exact List.mem_cons_self fE fsE
        exact mem_globName hmem
      rw [h0] at hb
      have : basenameStr "" = "" := by decide
      rw [this] at hb
      exact kss_example_ne_empty (basenameStr markup) hb.symm
    have hexname : (scannedTmpl ctxEnv (preM ++ srcM :: restM) reference markup).exampleName
        = "kss-example-" ++ basenameStr markup := by
      have := scanGM_const ctxEnv
        (findTemplates (preM ++ srcM :: restM) (basenameStr markup)) (fileTmpl reference markup)
      exact this.2
    rw [hfe, hexname, if_pos hfeNe]

/-- Witness for C2: the main template is found in the first root, the example
template only in the second; each is taken from its own first matching root. -/
theorem c2_independent_example_resolution_witness :
    isFileReference "x.twig" = true ∧
    (fileEventsFor (basenameStr "x.twig")
        (resolveMarkup false (fun _ => none) [["r0/x.twig"], ["r1/kss-example-x.twig"]]
          "1.1" "x.twig").compiles
      = [CompileEvent.fromFile (basenameStr "x.twig") "r0/x.twig"] ∧
    fileEventsFor ("kss-example-" ++ basenameStr "x.twig")
        (resolveMarkup false (fun _ => none) [["r0/x.twig"], ["r1/kss-example-x.twig"]]
          "1.1" "x.twig").compiles
      = [CompileEvent.fromFile ("kss-example-" ++ basenameStr "x.twig")
          "r1/kss-example-x.twig"] ∧
    (resolveMarkup false (fun _ => none) [["r0/x.twig"], ["r1/kss-example-x.twig"]]
        "1.1" "x.twig").record.exampleRef
      = some ("kss-example-" ++ basenameStr "x.twig")) :=
  ⟨by decide,
    c2_independent_example_resolution false (fun _ => none) "1.1" "x.twig"
      [["r0/x.twig"], ["r1/kss-example-x.twig"]] [] [["r1/kss-example-x.twig"]]
      [["r0/x.twig"]] [] ["r0/x.twig"] ["r1/kss-example-x.twig"]
      "r0/x.twig" "r1/kss-example-x.twig" [] []
      (by decide) (by decide) (by decide) (by decide) (by decide) (by decide) (by decide)⟩

theorem scanGM_all_empty (c : String → Option Ctx) (sources : List (List String))
    (t : TmplObj)
    (hnone : ∀ s ∈ sources, globName s t.name = [] ∧
      globName s ("kss-example-" ++ t.name) = []) :
    scanGlobMatches c t (findTemplates sources t.name) = t := by
  induction sources with
  | nil => rfl
  | cons s ss ih =>
    rw [findTemplates_cons, scanGlobMatches_cons,
      (hnone s (List.mem_cons_self s ss)).1, scanStep_nil, scanGlobMatches_cons,
      (hnone s (List.mem_cons_self s ss)).2, scanStep_nil]
    exact ih fun s2 hs2 => hnone s2 (List.mem_cons_of_mem s hs2)

/-- C3 counterexample: for a file reference found nowhere, the inline
fallback template is compiled from the marker-appended markup string, not
from the original markup text, and in verbose mode the only log line emitted
is informational, not the WARNING line. -/
theorem c3_counterexample :
    (resolveMarkup true (fun _ => none) [] "4.2" "missing.twig").compiles
        = [CompileEvent.inline "missing.twig" "missing.twig NOT FOUND!"] ∧
    (resolveMarkup true (fun _ => none) [] "4.2" "missing.twig").compiles
        ≠ [CompileEvent.inline "missing.twig" "missing.twig"] ∧
    (resolveMarkup true (fun _ => none) [] "4.2" "missing.twig").logs
        = [" - 4.2: missing.twig NOT FOUND!"] ∧
    (" - 4.2: missing.twig NOT FOUND!" : String)
        ≠ "WARNING: In section 4.2, missing.twig NOT FOUND!" := by
  decide

/-- C3 (amended): for a section whose markup references a file found under no
configured source root, the displayed markup string gets the `NOT FOUND!`
marker appended, the marker-appended markup string itself is compiled as an
inline fallback template under the section's template identity, a WARNING log
is emitted when verbose is off and an informational log carrying the marked
string when verbose is on, and the resolution completes normally with a saved
record (no example linkage, empty contexts) for the page build to render. -/
theorem c3_not_found_fallback
    (verbose : Bool) (ctxEnv : String → Option Ctx) (sources : List (List String))
    (reference markup : String)
    (hfile : isFileReference markup = true)
    (hnone : ∀ s ∈ sources, globName s (basenameStr markup) = [] ∧
      globName s ("kss-example-" ++ basenameStr markup) = []) :
    (resolveMarkup verbose ctxEnv sources reference markup).markupOut
        = markup ++ " NOT FOUND!" ∧
    (resolveMarkup verbose ctxEnv sources reference markup).compiles
        = [CompileEvent.inline (basenameStr markup) (markup ++ " NOT FOUND!")] ∧
    (resolveMarkup verbose ctxEnv sources reference markup).record
        = { ref := basenameStr markup, context := emptyCtx, exampleRef := none
            exampleContext := emptyCtx } ∧
    (resolveMarkup verbose ctxEnv sources reference markup).logs
        = (if verbose then [" - " ++ reference ++ ": " ++ (markup ++ " NOT FOUND!")]
           else ["WARNING: In section " ++ reference ++ ", " ++ (markup ++ " NOT FOUND!")]) := by
  rw [resolveMarkup_eq_file _ _ _ _ _ hfile]
  have hscan : scannedTmpl ctxEnv sources reference markup = fileTmpl reference markup :=
    scanGM_all_empty ctxEnv sources (fileTmpl reference markup) hnone
  unfold resolveFileMarkup
  rw [hscan]
  cases verbose <;> simp [fileTmpl, initTmpl]

/-- Witness for C3: `missing.twig` exists under no root; the resolution
completes with the marked markup, the inline fallback compile and the
WARNING log. -/
theorem c3_not_found_fallback_witness :
    isFileReference "missing.twig" = true ∧
    ((resolveMarkup false (fun _ => none) [["a/other.twig"]] "4.2" "missing.twig").markupOut
        = "missing.twig" ++ " NOT FOUND!" ∧
    (resolveMarkup false (fun _ => none) [["a/other.twig"]] "4.2" "missing.twig").compiles
        = [CompileEvent.inline (basenameStr "missing.twig")
            ("missing.twig" ++ " NOT FOUND!")] ∧
    (resolveMarkup false (fun _ => none) [["a/other.twig"]] "4.2" "missing.twig").record
        = { ref := basenameStr "missing.twig", context := emptyCtx, exampleRef := none
            exampleContext := emptyCtx } ∧
    (resolveMarkup false (fun _ => none) [["a/other.twig"]] "4.2" "missing.twig").logs
        = ["WARNING: In section " ++ "4.2" ++ ", " ++ ("missing.twig" ++ " NOT FOUND!")]) :=
  ⟨by decide,
    c3_not_found_fallback false (fun _ => none) [["a/other.twig"]] "4.2" "missing.twig"
      (by decide) (by decide)⟩

/-- C8 counterexample: the markup `.twig` is a single line with no line break
that ends in the template extension, yet the code classifies it as inline
(the regex demands at least one character before `.twig`) and compiles it as
an inline template under the section reference even though a root contains a
file of that name. -/
theorem c8_counterexample :
    c8FileRefClaim ".twig" = true ∧ isFileReference ".twig" = false ∧
    (resolveMarkup false (fun _ => none) [["r/.twig"]] "9.9" ".twig").compiles
        = [CompileEvent.inline "9.9" ".twig"] ∧
    (resolveMarkup false (fun _ => none) [["r/.twig"]] "9.9" ".twig").record.ref = "9.9" := by
  decide

/-- C8 (amended): markup is classified as a file reference exactly when it is
a single line with no embedded line breaks, ending in `.twig`, with at least
one character before that extension; anything else is compiled directly as an
inline template under an identity equal to the section's reference, with no
example linkage and empty sample contexts. -/
theorem c8_classification (verbose : Bool) (ctxEnv : String → Option Ctx)
    (sources : List (List String)) (reference m : String) (_hm : m ≠ "") :
    isFileReference m = (c8FileRefClaim m && decide (5 < m.toList.length)) ∧
    (isFileReference m = false →
      resolveMarkup verbose ctxEnv sources reference m =
        { record := { ref := reference, context := emptyCtx, exampleRef := none
                      exampleContext := emptyCtx }
          compiles := [CompileEvent.inline reference m]
          logs := if verbose then [" - " ++ reference ++ ": inline markup"] else []
          markupOut := m
          markupFileCustom := none }) := by
  constructor
  · have h5 : (".twig".toList).length = 5 := by decide
    by_cases hlen : 5 < m.toList.length
    · have hdrop : (m.toList.drop (m.toList.length - 5) == ".twig".toList)
          = (".twig".toList.isSuffixOf m.toList) := by
        by_cases hsfx : ".twig".toList <:+ m.toList
        · have h1 : ".twig".toList.isSuffixOf m.toList = true :=
            List.isSuffixOf_iff_suffix.mpr hsfx
          have h2 := List.suffix_iff_eq_drop.mp hsfx
          rw [h5] at h2
          rw [h1]
          exact beq_iff_eq.mpr h2.symm
        · have h1 : ".twig".toList.isSuffixOf m.toList = false := by
            rw [Bool.eq_false_iff]
            intro hc
            exact hsfx (List.isSuffixOf_iff_suffix.mp hc)
          rw [h1]
          apply beq_eq_false_iff_ne.mpr
          intro hc
          exact hsfx (List.suffix_iff_eq_drop.mpr (by rw [h5]; exact hc.symm))
      have hd : decide (5 < m.toList.length) = true := decide_eq_true hlen
      show (decide (5 < m.toList.length) && !(m.toList.contains '\n') &&
          (m.toList.drop (m.toList.length - 5) == ".twig".toList))
        = ((!(m.toList.contains '\n') && ".twig".toList.isSuffixOf m.toList) &&
            decide (5 < m.toList.length))
      rw [hd, hdrop]
      cases (".twig".toList.isSuffixOf m.toList) <;>
        cases (m.toList.contains '\n') <;> rfl
    · have hd : decide (5 < m.toList.length) = false := decide_eq_false hlen
      show (decide (5 < m.toList.length) && !(m.toList.contains '\n') &&
          (m.toList.drop (m.toList.length - 5) == ".twig".toList))
        = ((!(m.toList.contains '\n') && ".twig".toList.isSuffixOf m.toList) &&
            decide (5 < m.toList.length))
      rw [hd]
      cases (".twig".toList.isSuffixOf m.toList) <;>
        cases (m.toList.contains '\n') <;> rfl
  · intro hfalse
    rw [resolveMarkup_eq_inline _ _ _ _ _ hfalse]
    rfl

/-- Witness for C8: inline markup `<p>hi</p>` is not a file reference and is
compiled inline under the section's reference. -/
theorem c8_classification_witness :
    ("<p>hi</p>" : String) ≠ "" ∧
    (isFileReference "<p>hi</p>"
        = (c8FileRefClaim "<p>hi</p>" && decide (5 < "<p>hi</p>".toList.length)) ∧
    (isFileReference "<p>hi</p>" = false →
      resolveMarkup true (fun _ => none) [] "2" "<p>hi</p>" =
        { record := { ref := "2", context := emptyCtx, exampleRef := none
                      exampleContext := emptyCtx }
          compiles := [CompileEvent.inline "2" "<p>hi</p>"]
          logs := if true then [" - " ++ "2" ++ ": inline markup"] else []
          markupOut := "<p>hi</p>"
          markupFileCustom := none })) :=
  ⟨by decide, c8_classification true (fun _ => none) [] "2" "<p>hi</p>" (by decide)⟩

/-- C4: the stored sample contexts of a section's template record are never
mutated by rendering: the record passes through a rendering unchanged,
rendering the same section again from the (unchanged) stored record yields
the identical output, and the already-computed markup and example strings do
not depend on the modifiers' class names (modifiers influence them only
through the placeholder rule, which sees merely whether any modifier
exists). -/
theorem c4_no_context_mutation (render : String → Ctx → String) (safeMarkup : Ctx → Ctx)
    (placeholder : String) (info : UserTemplate) (cn cn' : String) (mods mods' : List String) :
    (buildPageSectionSt render safeMarkup placeholder info (cn :: mods)).2 = info ∧
    (buildPageSectionSt render safeMarkup placeholder
        (buildPageSectionSt render safeMarkup placeholder info (cn :: mods)).2 (cn :: mods)).1
      = (buildPageSectionSt render safeMarkup placeholder info (cn :: mods)).1 ∧
    (buildPageSection render safeMarkup placeholder info (cn :: mods)).markup
      = (buildPageSection render safeMarkup placeholder info (cn' :: mods')).markup ∧
    (buildPageSection render safeMarkup placeholder info (cn :: mods)).exampleView
      = (buildPageSection render safeMarkup placeholder info (cn' :: mods')).exampleView := by
  refine ⟨rfl, rfl, ?_, ?_⟩
  · simp [buildPageSection]
  · cases hex : info.exampleRef <;> simp [buildPageSection, hex]

/-- C6: when the template record declares no distinct example template, the
section's example view is exactly its canonical rendered markup string. -/
theorem c6_example_equals_markup (render : String → Ctx → String) (safeMarkup : Ctx → Ctx)
    (placeholder ref : String) (ctx exCtx : Ctx) (mods : List String) :
    (buildPageSection render safeMarkup placeholder
        { ref := ref, context := ctx, exampleRef := none, exampleContext := exCtx }
        mods).exampleView
      = (buildPageSection render safeMarkup placeholder
        { ref := ref, context := ctx, exampleRef := none, exampleContext := exCtx }
        mods).markup := rfl

/-- C7 counterexample: for a modifier rendered from a context with no stored
modifier-class value, the code sets the class field to the class name alone
(`"disabled"`), not to the existing value followed by a space and the class
name (`" disabled"`) as the claim words it. -/
theorem c7_counterexample :
    (buildPageSection mcExtract (fun c => c) "[modifier class]"
        { ref := "t", context := emptyCtx, exampleRef := none, exampleContext := emptyCtx }
        ["disabled"]).modifierMarkups
      ≠ [claimedModifierMarkup mcExtract (fun c => c)
          { ref := "t", context := emptyCtx, exampleRef := none, exampleContext := emptyCtx }
          "disabled"] := by
  decide

theorem modifierRender_eq_amended (render : String → Ctx → String) (safeMarkup : Ctx → Ctx)
    (info : UserTemplate) (className : String) :
    modifierRender render safeMarkup info className
      = amendedModifierMarkup render safeMarkup info className := by
  unfold modifierRender amendedModifierMarkup
  cases h : (jsonClone (exampleTemplateCtx info)).modifier_class with
  | none => simp [h, string_empty_append]
  | some mstr =>
    by_cases hm : mstr = "" <;> simp [h, hm, string_empty_append]

/-- C7 (amended): every modifier of a rendered section is rendered by
deep-copying the example sample context (or the main context when no distinct
example exists), setting its modifier-class field to the modifier's own class
name when the existing value is empty or absent and otherwise to the existing
value, a space, and the class name (never the placeholder), and rendering the
example template (or the main template when no distinct example exists). -/
theorem c7_modifier_rendering (render : String → Ctx → String) (safeMarkup : Ctx → Ctx)
    (placeholder : String) (info : UserTemplate) (mods : List String) :
    (buildPageSection render safeMarkup placeholder info mods).modifierMarkups
      = mods.map (amendedModifierMarkup render safeMarkup info) := by
  have hfun : modifierRender render safeMarkup info
      = amendedModifierMarkup render safeMarkup info :=
    funext fun a => modifierRender_eq_amended render safeMarkup info a
  show mods.map (modifierRender render safeMarkup info) = _
  rw [hfun]

/-- C9: the configured placeholder is injected into a rendering context only
when the section has at least one modifier and the placeholder option is a
non-empty string; with an empty placeholder, or with no modifiers, the
modifier-class field keeps only its existing value (defaulted to the empty
string).  The rule covers both the canonical markup context (source lines
556-558) and, when a distinct example template exists, the example rendering
context (source lines 580-584). -/
theorem c9_placeholder_condition (render : String → Ctx → String) (safeMarkup : Ctx → Ctx)
    (info : UserTemplate) (ref exr : String) (ctx exCtx : Ctx)
    (cn : String) (ms mods : List String) (p : String) (hp : p ≠ "") :
    ((buildPageSection render safeMarkup "" info mods).markup
        = render info.ref (safeMarkup
            { modifier_class := some (info.context.modifier_class.getD "")
              rest := info.context.rest })) ∧
    ((buildPageSection render safeMarkup p info []).markup
        = render info.ref (safeMarkup
            { modifier_class := some (info.context.modifier_class.getD "")
              rest := info.context.rest })) ∧
    ((buildPageSection render safeMarkup p info (cn :: ms)).markup
        = render info.ref (safeMarkup
            { modifier_class := some (info.context.modifier_class.getD ""
                  ++ (if info.context.modifier_class.getD "" ≠ "" then " " else "") ++ p)
              rest := info.context.rest })) ∧
    ((buildPageSection render safeMarkup ""
        { ref := ref, context := ctx, exampleRef := some exr, exampleContext := exCtx }
        mods).exampleView
      = render exr (safeMarkup
          { modifier_class := some (exCtx.modifier_class.getD "")
            rest := exCtx.rest })) ∧
    ((buildPageSection render safeMarkup p
        { ref := ref, context := ctx, exampleRef := some exr, exampleContext := exCtx }
        []).exampleView
      = render exr (safeMarkup
          { modifier_class := some (exCtx.modifier_class.getD "")
            rest := exCtx.rest })) ∧
    ((buildPageSection render safeMarkup p
        { ref := ref, context := ctx, exampleRef := some exr, exampleContext := exCtx }
        (cn :: ms)).exampleView
      = render exr (safeMarkup
          { modifier_class := some (exCtx.modifier_class.getD ""
                ++ (if exCtx.modifier_class.getD "" ≠ "" then " " else "") ++ p)
            rest := exCtx.rest })) := by
  refine ⟨?_, ?_, ?_, ?_, ?_, ?_⟩
  · simp [buildPageSection, jsonClone]
  · simp [buildPageSection, jsonClone]
  · simp [buildPageSection, jsonClone, hp]
  · simp [buildPageSection, jsonClone]
  · simp [buildPageSection, jsonClone]
  · simp [buildPageSection, jsonClone, hp]

/-- Witness for C9: with the default placeholder and one modifier, the main
rendering context carries the placeholder as its modifier class, and so does
the example rendering context of a record with a distinct example template
(whose stored class value `base` gains the space-separated placeholder);
with an empty placeholder or no modifiers both contexts keep the existing
value only. -/
theorem c9_placeholder_condition_witness :
    ("[modifier class]" : String) ≠ "" ∧
    (((buildPageSection mcExtract (fun c => c) ""
          { ref := "t", context := emptyCtx, exampleRef := none, exampleContext := emptyCtx }
          ["a"]).markup
        = mcExtract "t" ((fun c => c)
            { modifier_class := some (emptyCtx.modifier_class.getD "")
              rest := emptyCtx.rest })) ∧
    ((buildPageSection mcExtract (fun c => c) "[modifier class]"
          { ref := "t", context := emptyCtx, exampleRef := none, exampleContext := emptyCtx }
          []).markup
        = mcExtract "t" ((fun c => c)
            { modifier_class := some (emptyCtx.modifier_class.getD "")
              rest := emptyCtx.rest })) ∧
    ((buildPageSection mcExtract (fun c => c) "[modifier class]"
          { ref := "t", context := emptyCtx, exampleRef := none, exampleContext := emptyCtx }
          ["a"]).markup
        = mcExtract "t" ((fun c => c)
            { modifier_class := some (emptyCtx.modifier_class.getD ""
                  ++ (if emptyCtx.modifier_class.getD "" ≠ "" then " " else "")
                  ++ "[modifier class]")
              rest := emptyCtx.rest })) ∧
    ((buildPageSection mcExtract (fun c => c) ""
          { ref := "t", context := emptyCtx, exampleRef := some "ex"
            exampleContext := { modifier_class := some "base", rest := [] } }
          ["a"]).exampleView
        = mcExtract "ex" ((fun c => c)
            { modifier_class :=
                some ((Ctx.mk (some "base") []).modifier_class.getD "")
              rest := (Ctx.mk (some "base") []).rest })) ∧
    ((buildPageSection mcExtract (fun c => c) "[modifier class]"
          { ref := "t", context := emptyCtx, exampleRef := some "ex"
            exampleContext := { modifier_class := some "base", rest := [] } }
          []).exampleView
        = mcExtract "ex" ((fun c => c)
            { modifier_class :=
                some ((Ctx.mk (some "base") []).modifier_class.getD "")
              rest := (Ctx.mk (some "base") []).rest })) ∧
    ((buildPageSection mcExtract (fun c => c) "[modifier class]"
          { ref := "t", context := emptyCtx, exampleRef := some "ex"
            exampleContext := { modifier_class := some "base", rest := [] } }
          ["a"]).exampleView
        = mcExtract "ex" ((fun c => c)
            { modifier_class :=
                some ((Ctx.mk (some "base") []).modifier_class.getD ""
                  ++ (if (Ctx.mk (some "base") []).modifier_class.getD "" ≠ ""
                      then " " else "")
                  ++ "[modifier class]")
              rest := (Ctx.mk (some "base") []).rest }))) :=
  ⟨by decide,
    c9_placeholder_condition mcExtract (fun c => c)
      { ref := "t", context := emptyCtx, exampleRef := none, exampleContext := emptyCtx }
      "t" "ex" emptyCtx { modifier_class := some "base", rest := [] }
      "a" [] ["a"] "[modifier class]" (by decide)⟩

/-- C5: page-level templates resolve through the fixed fallback order
item, then section, then homepage: a failed `section.twig` load leaves the
index template serving section pages, a failed `item.twig` load leaves the
section page template (or, failing that too, the index template) serving item
pages, and the loading always completes with all three page templates set —
a missing dedicated page template never aborts the build. -/
theorem c5_page_template_fallback (envIndex : String) (envSection envItem : Option String) :
    ((loadPageTemplates envIndex none envItem
        { indexT := none, sectionT := none, itemT := none }).1.sectionT = some envIndex) ∧
    ((loadPageTemplates envIndex envSection none
        { indexT := none, sectionT := none, itemT := none }).1.itemT
      = (loadPageTemplates envIndex envSection none
        { indexT := none, sectionT := none, itemT := none }).1.sectionT) ∧
    ((loadPageTemplates envIndex none none
        { indexT := none, sectionT := none, itemT := none }).1.itemT = some envIndex) ∧
    ((loadPageTemplates envIndex envSection envItem
        { indexT := none, sectionT := none, itemT := none }).1.sectionT.isSome = true) ∧
    ((loadPageTemplates envIndex envSection envItem
        { indexT := none, sectionT := none, itemT := none }).1.itemT.isSome = true) := by
  refine ⟨rfl, ?_, rfl, ?_, ?_⟩
  · cases envSection <;> rfl
  · cases envSection <;> cases envItem <;> rfl
  · cases envSection <;> cases envItem <;> rfl

/-- C10: the page-level templates are compiled only on a build that starts
with them still undefined; a later build of the same builder reuses all three
unchanged and its compilations are exactly the per-section template
compilations, even though the template registry and the per-build user
template map are rebuilt from scratch (the outcome of a build is independent
of the previous build's registry and user templates). -/
theorem c10_page_templates_cached
    (eI eI2 : String) (eS eIt eS2 eIt2 : Option String) (vb vb2 : Bool)
    (cEnv cEnv2 : String → Option Ctx) (srcs srcs2 : List (List String))
    (secs secs2 : List SectionIn) (reg reg2 : List String)
    (uts uts2 : List (String × UserTemplate)) (st0 : BuilderState) :
    (∃ a b c, (buildStep eI eS eIt vb cEnv srcs secs
        { templates := { indexT := none, sectionT := none, itemT := none }
          registry := reg, userTemplates := uts }).1.templates
      = { indexT := some a, sectionT := some b, itemT := some c }) ∧
    (∀ a b c,
      (buildStep eI2 eS2 eIt2 vb2 cEnv2 srcs2 secs2
          { templates := { indexT := some a, sectionT := some b, itemT := some c }
            registry := reg2, userTemplates := uts2 }).1.templates
        = { indexT := some a, sectionT := some b, itemT := some c } ∧
      (buildStep eI2 eS2 eIt2 vb2 cEnv2 srcs2 secs2
          { templates := { indexT := some a, sectionT := some b, itemT := some c }
            registry := reg2, userTemplates := uts2 }).2
        = sectionCompiles vb2 cEnv2 srcs2 secs2) ∧
    buildStep eI eS eIt vb cEnv srcs secs { st0 with registry := reg, userTemplates := uts }
      = buildStep eI eS eIt vb cEnv srcs secs
          { st0 with registry := reg2, userTemplates := uts2 } := by
  refine ⟨?_, ?_, rfl⟩
  · cases eS with
    | none =>
      cases eIt with
      | none => exact ⟨eI, eI, eI, rfl⟩
      | some i => exact ⟨eI, eI, i, rfl⟩
    | some s =>
      cases eIt with
      | none => exact ⟨eI, s, s, rfl⟩
      | some i => exact ⟨eI, s, i, rfl⟩
  · intro a b c
    exact ⟨rfl, rfl⟩
